import Mathlib

/-!
# Verification of the merchant success-rate dashboard core pipeline

Shallow embedding of the core data pipeline of `Dashboard_New.py` and
`Dashboard_New_PDF1.py`: state normalization, column reconciliation,
file merging with amount coercion, per-merchant statistics, and the
per-merchant date-range resolver.

Strings are modelled with Lean `String`; the Python string methods used by
the source (`strip`, `lower`, `capitalize`) are modelled on their ASCII
behaviour, which is the range the canonical state vocabulary and the
required column names live in.  Numeric cells model the pandas float
domain: a finite value is carried as an exact rational `ℚ` (no claim here
depends on rounding of binary floating point, only on bounds and sums),
and the two infinities — which `pd.to_numeric` produces from inputs such
as `"inf"` or overflowing numerals and which `.fillna(0)` keeps — are
represented explicitly.  A missing value (pandas `NaN`/`None`) is modelled
as `Option.none` or as the `Cell.null` constructor; `NaN` is pandas' own
missing-value marker, so a float `NaN` and a missing cell coincide.
-/

set_option maxRecDepth 10000

namespace Dashboard

/-- ASCII whitespace, the characters removed by Python `str.strip()`. -/
def isPySpace (c : Char) : Bool :=
  c == ' ' || c == '\t' || c == '\n' || c == '\r' || c == '\x0b' || c == '\x0c'

/-- Python `str.strip()`: remove leading and trailing whitespace
(ASCII model). -/
def pyStrip (s : String) : String :=
  String.mk (((s.data.dropWhile isPySpace).reverse.dropWhile isPySpace).reverse)

/-- Python `str.lower()` (ASCII model). -/
def pyLower (s : String) : String :=
  String.mk (s.data.map Char.toLower)

/-- Python `str.capitalize()`: the first character is uppercased and every
remaining character is lowercased (ASCII model). -/
def pyCapitalize (s : String) : String :=
  match s.data with
  | [] => ""
  | c :: cs => String.mk (c.toUpper :: cs.map Char.toLower)

/-- The literal variation map of `normalize_state`
(`Dashboard_New.py` lines 45-60). -/
def state_map : List (String × String) :=
  [("remitted", "Remitted"),
   ("published", "Published"),
   ("rejected", "Rejected"),
   ("on hold", "On hold"),
   ("onhold", "On hold"),
   ("stuck", "Stuck"),
   ("in review", "In review"),
   ("inreview", "In review"),
   ("in process", "In process"),
   ("inprocess", "In process"),
   ("aml review", "Aml review"),
   ("amlreview", "Aml review"),
   ("no config", "No config"),
   ("noconfig", "No config")]

/-- `normalize_state` (`Dashboard_New.py` lines 37-62).  The argument is
`none` when the source value is missing (`pd.isna`).  The dictionary of the
source has pairwise distinct keys, so `List.lookup` on the literal list is
exactly `dict.get`; the default branch is `state.capitalize()` applied to
the original (untrimmed) input. -/
def normalize_state (state : Option String) : String :=
  match state with
  | none => "Unknown"
  | some s =>
    let state_lower := pyLower (pyStrip s)
    match state_map.lookup state_lower with
    | some v => v
    | none => pyCapitalize s

example : normalize_state none = "Unknown" := by decide
example : normalize_state (some "  on Hold ") = "On hold" := by decide
example : normalize_state (some "REMITTED") = "Remitted" := by decide
example : normalize_state (some "SECURED") = "Secured" := by decide
example : normalize_state (some "") = "" := by decide
example : normalize_state (some "   ") = "   " := by decide
example : normalize_state (some " FOO") = " foo" := by decide

/-- A cell of a data table: missing (`NaN`), a string, or a float value.
A finite float is carried as an exact rational in `num`; the non-finite
floats `+∞` and `-∞` — valid pandas float values, distinct from `NaN` —
are `inf true` and `inf false`. -/
inductive Cell : Type where
  | null : Cell
  | str : String → Cell
  | num : ℚ → Cell
  | inf : Bool → Cell
deriving DecidableEq, Repr

/-- A pandas DataFrame, column-oriented: an explicit row count and an
ordered list of `(label, data)` columns.  Duplicate labels are allowed, as
in pandas.  In a well-formed frame every column holds `nrows` cells. -/
structure DF : Type where
  nrows : Nat
  cols : List (String × List Cell)
deriving DecidableEq, Repr

/-- Every column of the frame holds exactly `nrows` cells. -/
def DF.WF (df : DF) : Prop :=
  ∀ c ∈ df.cols, c.2.length = df.nrows

/-- `REQUIRED_COLUMNS` (`Dashboard_New.py` lines 15-22). -/
def REQUIRED_COLUMNS : List String :=
  ["Account", "Merchant ID", "Amount", "Remit. Timestamp", "Issue Timestamp", "State"]

/-- The rename target of one (already stripped) column label: the inner
loop of `clean_dataframe` (`Dashboard_New.py` lines 71-75), which takes the
first required name matching case-insensitively and breaks; an unmatched
label is left unchanged by `df.rename`. -/
def renameCol (col : String) : String :=
  match REQUIRED_COLUMNS.find? (fun req => pyLower col = pyLower req) with
  | some req => req
  | none => col

/-- `clean_dataframe` (`Dashboard_New.py` lines 64-84): strip the column
labels, rename case-insensitive matches of required names to the canonical
name, then select the required columns that exist.  pandas `rename` with a
label-keyed mapping relabels every column independently (it can create
duplicate labels; nothing is merged or overwritten), and selecting with a
list of labels returns, for each label in order, every column bearing it,
in original order. -/
def clean_dataframe (df : DF) : DF :=
  let stripped := df.cols.map (fun c => (pyStrip c.1, c.2))
  let renamed := stripped.map (fun c => (renameCol c.1, c.2))
  let existing := REQUIRED_COLUMNS.filter (fun req => renamed.any (fun c => c.1 = req))
  { nrows := df.nrows
    cols := existing.flatMap (fun req => renamed.filter (fun c => c.1 = req)) }

/-- First-occurrence de-duplication of column labels, used to model the
column union performed by `pd.concat`. -/
def dedupFirst (seen : List String) : List String → List String
  | [] => []
  | x :: xs =>
    if seen.contains x then dedupFirst seen xs
    else x :: dedupFirst (x :: seen) xs

/-- `pd.concat(all_data, ignore_index=True)` (`Dashboard_New.py` line 110):
row-wise concatenation with column union.  The result has one column per
distinct label, in order of first appearance; a frame lacking the label
contributes a run of missing values.  (pandas raises on a frame with
duplicate labels when a union reindex is needed; the model reads the first
column with the label — no claim exercises that corner.) -/
def concatDFs (dfs : List DF) : DF :=
  let names := dedupFirst [] (dfs.flatMap (fun d => d.cols.map Prod.fst))
  { nrows := (dfs.map DF.nrows).sum
    cols := names.map (fun n =>
      (n, dfs.flatMap (fun d =>
        match d.cols.find? (fun c => c.1 = n) with
        | some c => c.2
        | none => List.replicate d.nrows Cell.null))) }

/-- A pandas float value: finite (exact rational), `+∞` or `-∞`.  `NaN`
is not a value here: it is pandas' missing marker, `Option.none`. -/
inductive PyNum : Type where
  | fin : ℚ → PyNum
  | pinf : PyNum
  | ninf : PyNum
deriving DecidableEq, Repr

/-- The cell holding a float value. -/
def numCell : PyNum → Cell
  | PyNum.fin q => Cell.num q
  | PyNum.pinf => Cell.inf true
  | PyNum.ninf => Cell.inf false

/-- A digit run parsed to a natural number; fails on an empty or
non-digit run. -/
def parseNatDigits (cs : List Char) : Option Nat :=
  if cs ≠ [] ∧ cs.all Char.isDigit then
    some (cs.foldl (fun a c => a * 10 + (c.toNat - 48)) 0)
  else none

/-- Split a character list at each occurrence of a separator. -/
def splitOnCh (sep : Char) : List Char → List (List Char)
  | [] => [[]]
  | c :: cs =>
    let rest := splitOnCh sep cs
    if c = sep then [] :: rest
    else
      match rest with
      | [] => [[c]]
      | r :: rs => (c :: r) :: rs

/-- The smallest exact decimal magnitude that IEEE-754 double conversion
rounds up to infinity: the midpoint between the largest finite double
`2^1024 - 2^971` and `2^1024`, under round-half-to-even. -/
def overflowBound : ℚ := 2 ^ 1024 - 2 ^ 970

/-- Store an exact decimal value as a double does: saturate to `±∞` past
the overflow boundary, keep the exact value otherwise (the model keeps
finite values exact instead of rounding them to 53 bits; no claim depends
on that rounding, and gradual underflow to `0.0` is likewise kept exact —
both stay finite either way). -/
def saturate (v : ℚ) : PyNum :=
  if overflowBound ≤ v then PyNum.pinf
  else if v ≤ -overflowBound then PyNum.ninf
  else PyNum.fin v

/-- A decimal mantissa: integer digits, optional fractional digits. -/
def parseMantissa (cs : List Char) : Option ℚ :=
  match splitOnCh '.' cs with
  | [intPart] => (parseNatDigits intPart).map (fun n => (n : ℚ))
  | [intPart, fracPart] =>
    if intPart = [] ∧ fracPart = [] then none
    else
      let ip := if intPart = [] then some 0 else parseNatDigits intPart
      let fp := if fracPart = [] then some 0 else parseNatDigits fracPart
      match ip, fp with
      | some i, some f => some ((i : ℚ) + (f : ℚ) / (10 ^ fracPart.length))
      | _, _ => none
  | _ => none

/-- A decimal exponent: optional sign, digits. -/
def parseExp (cs : List Char) : Option ℤ :=
  match cs with
  | '-' :: rest => (parseNatDigits rest).map (fun n => -(n : ℤ))
  | '+' :: rest => (parseNatDigits rest).map (fun n => (n : ℤ))
  | _ => (parseNatDigits cs).map (fun n => (n : ℤ))

/-- The string-to-float conversion of `pd.to_numeric`: strip, optional
sign, then either an infinity token (`inf` / `infinity`, any case) or a
decimal numeral with optional exponent, saturating to `±∞` past the
double range — so `"inf"`, `"-inf"` and overflowing numerals such as
`"1e999"` convert **successfully** to an infinity.  A `"nan"` token and
every malformed string are returned as `none`: both reach the pipeline as
`NaN` and are then replaced by `fillna(0)`, so collapsing them is
outcome-faithful there. -/
def parseFloat (s : String) : Option PyNum :=
  let t := pyLower (pyStrip s)
  let signBody : Bool × List Char :=
    match t.data with
    | '-' :: rest => (true, rest)
    | '+' :: rest => (false, rest)
    | cs => (false, cs)
  let neg := signBody.1
  let body := signBody.2
  if body = "inf".data ∨ body = "infinity".data then
    some (if neg then PyNum.ninf else PyNum.pinf)
  else
    match splitOnCh 'e' body with
    | [mant] => (parseMantissa mant).map (fun v => saturate (if neg then -v else v))
    | [mant, ex] =>
      match parseMantissa mant, parseExp ex with
      | some v, some e => some (saturate ((if neg then -v else v) * (10 : ℚ) ^ e))
      | _, _ => none
    | _ => none

/-- Numeric view of a cell, as `pd.to_numeric(-, errors choose coerce)`
sees it: a float value stays itself, a missing value stays missing
(`NaN`), a string is converted or becomes `NaN`. -/
def toNum : Cell → Option PyNum
  | Cell.null => none
  | Cell.num q => some (PyNum.fin q)
  | Cell.inf b => some (if b then PyNum.pinf else PyNum.ninf)
  | Cell.str s => parseFloat s

/-- `normalize_state` applied to a cell of the `State` column.  A missing
cell is `pd.isna`; any other cell goes through `str(state)` — for a
float cell the source renders the number first (the rendering here is
`toString` on `ℚ`, and Python's `"inf"`/`"-inf"` for the infinities, an
approximation of Python `str`; no claim touches numeric state cells). -/
def normalize_state_cell : Cell → Cell
  | Cell.null => Cell.str (normalize_state none)
  | Cell.str s => Cell.str (normalize_state (some s))
  | Cell.num q => Cell.str (normalize_state (some (toString q)))
  | Cell.inf b => Cell.str (normalize_state (some (if b then "inf" else "-inf")))

/-- `combined_df` update for `State` (`Dashboard_New.py` lines 113-114):
when a `State` column exists, every `State` column's cells are passed
through `normalize_state`. -/
def normalizeStateCol (df : DF) : DF :=
  if df.cols.any (fun c => c.1 = "State") then
    { df with cols := df.cols.map (fun c =>
        if c.1 = "State" then (c.1, c.2.map normalize_state_cell) else c) }
  else df

/-- The coercion applied to each `Amount` cell
(`Dashboard_New.py` line 118): `pd.to_numeric(-, errors choose coerce)`
followed by `.fillna(0)`.  Only `NaN` — a missing or unconvertible value —
is replaced by `0`; a successfully converted infinity is **kept**. -/
def coerceAmountCell (c : Cell) : Cell :=
  numCell ((toNum c).getD (PyNum.fin 0))

/-- `combined_df` update for `Amount` (`Dashboard_New.py` lines 117-118). -/
def coerceAmountCol (df : DF) : DF :=
  if df.cols.any (fun c => c.1 = "Amount") then
    { df with cols := df.cols.map (fun c =>
        if c.1 = "Amount" then (c.1, c.2.map coerceAmountCell) else c) }
  else df

/-- `process_files` (`Dashboard_New.py` lines 86-120).  A file is an
element of the input list; parsing (`pd.read_csv` / `pd.read_excel`) is
external I/O whose outcome is modelled as `Option DF` — `none` is a file
whose parse raised and was skipped after reporting the error.  Each parsed
frame is cleaned; if no file parsed the function returns `None`; otherwise
the cleaned frames are concatenated, `State` is normalized and `Amount`
coerced. -/
def process_files (files : List (Option DF)) : Option DF :=
  let all_data := (files.filterMap id).map clean_dataframe
  if all_data.isEmpty then none
  else some (coerceAmountCol (normalizeStateCol (concatDFs all_data)))

example :
    clean_dataframe { nrows := 1, cols := [("state", [Cell.num 1]), ("State", [Cell.num 2])] }
      = { nrows := 1, cols := [("State", [Cell.num 1]), ("State", [Cell.num 2])] } := by
  decide

example :
    process_files [some { nrows := 0, cols := [("State", [])] }]
      = some { nrows := 0, cols := [("State", [])] } := by
  decide

example :
    process_files [some { nrows := 1, cols := [(" amount", [Cell.str "N/A"])] }]
      = some { nrows := 1, cols := [("Amount", [Cell.num 0])] } := by
  decide

example : parseFloat "12.5" = some (PyNum.fin (25/2)) := by
  have h1 : '1'.toLower.toNat = 49 := by decide
  have h2 : '2'.toLower.toNat = 50 := by decide
  have h5 : '5'.toLower.toNat = 53 := by decide
  norm_num +decide [parseFloat, pyStrip, pyLower, isPySpace, splitOnCh, parseMantissa,
    parseNatDigits, saturate, overflowBound, h1, h2, h5]

example : parseFloat "inf" = some PyNum.pinf := by decide
example : parseFloat " -Infinity " = some PyNum.ninf := by decide
example : parseFloat "nan" = none := by decide
example : parseFloat "1e999" = some PyNum.pinf := by
  have h1 : '1'.toLower.toNat = 49 := by decide
  have h9 : '9'.toLower.toNat = 57 := by decide
  norm_num +decide [parseFloat, pyStrip, pyLower, isPySpace, splitOnCh, parseMantissa,
    parseExp, parseNatDigits, saturate, overflowBound, zpow_natCast, h1, h9]

example : process_files [none, none] = none := by decide

/-- Round-half-even to an integer, the rounding of Python `round`. -/
def roundHalfEven (q : ℚ) : ℤ :=
  if q - ⌊q⌋ < 1/2 then ⌊q⌋
  else if 1/2 < q - ⌊q⌋ then ⌊q⌋ + 1
  else if ⌊q⌋ % 2 = 0 then ⌊q⌋ else ⌊q⌋ + 1

/-- Python `round(x, 2)`: round half-to-even at two decimal places.
(The source rounds a Python float; the model rounds the exact rational.) -/
def round2 (q : ℚ) : ℚ :=
  (roundHalfEven (q * 100) : ℚ) / 100

/-- A row of the unified table as `calculate_merchant_stats` consumes it:
`process_files` has already normalized `State` (so it holds a string) and
coerced `Amount` (so it holds a number). -/
structure Txn : Type where
  merchantId : String
  state : String
  amount : ℚ
deriving DecidableEq, Repr

/-- The dictionary returned by `calculate_merchant_stats`
(`Dashboard_New.py` lines 140-149).  The two state dictionaries are
modelled as association lists keyed by the distinct states of the filtered
rows; the source's `value_counts()` and `groupby` order their keys
differently, but both are returned as Python dicts, so only the key-value
association is observable. -/
structure Stats : Type where
  merchant_id : String
  total_txns : Nat
  success_txns : Nat
  success_rate : ℚ
  total_amount : ℚ
  success_amount : ℚ
  state_counts : List (String × Nat)
  state_amounts : List (String × ℚ)
deriving DecidableEq, Repr

/-- The distinct values of the `State` column of a row list, the common
key set of `value_counts()` and `groupby('State')`.  Both pandas
operations drop missing values, but a normalized state column holds no
missing value (`normalize_state` always returns a string). -/
def distinctStates (l : List Txn) : List String :=
  (l.map Txn.state).dedup

/-- `calculate_merchant_stats` (`Dashboard_New.py` lines 122-149). -/
def calculate_merchant_stats (df : List Txn) (merchant_id : String) : Stats :=
  let merchant_data := df.filter (fun r => r.merchantId = merchant_id)
  let total_txns := merchant_data.length
  let success_txns := (merchant_data.filter (fun r => r.state = "Remitted")).length
  let success_rate : ℚ :=
    if total_txns > 0 then (success_txns : ℚ) / (total_txns : ℚ) * 100 else 0
  let total_amount := (merchant_data.map Txn.amount).sum
  let success_amount :=
    ((merchant_data.filter (fun r => r.state = "Remitted")).map Txn.amount).sum
  { merchant_id := merchant_id
    total_txns := total_txns
    success_txns := success_txns
    success_rate := round2 success_rate
    total_amount := total_amount
    success_amount := success_amount
    state_counts := (distinctStates merchant_data).map
      (fun s => (s, (merchant_data.filter (fun r => r.state = s)).length))
    state_amounts := (distinctStates merchant_data).map
      (fun s => (s, ((merchant_data.filter (fun r => r.state = s)).map Txn.amount).sum)) }

/-- The overall statistics of the dashboard (`Dashboard_New.py` lines
184-188) read the full table with no merchant filter; the spec's
`compute_overall_stats` contract (§4.4) extends this to the per-state
breakdown.  This is the state-count computation of
`calculate_merchant_stats` applied to the unfiltered table. -/
def overall_state_counts (df : List Txn) : List (String × Nat) :=
  (distinctStates df).map (fun s => (s, (df.filter (fun r => r.state = s)).length))

/-- A row of the unified table as `get_merchant_date_range` consumes it.
`issueTs` is the outcome of `pd.to_datetime(-, errors choose coerce)` on
the row's `Issue Timestamp` cell, a time point modelled as a natural
number; `none` is `NaT` (missing or unparseable). -/
structure RRow : Type where
  merchantId : String
  issueTs : Option Nat
deriving DecidableEq, Repr

/-- The unified table as seen by `get_merchant_date_range`: the rows plus
whether an `Issue Timestamp` column exists at all. -/
structure RTable : Type where
  hasIssueCol : Bool
  rows : List RRow
deriving DecidableEq, Repr

/-- `get_merchant_date_range` (`Dashboard_New_PDF1.py` lines 161-184):
filter to the merchant's rows, return `(None, None)` when there are none,
or when there is no `Issue Timestamp` column, or when no timestamp
parses; otherwise the min and max of the parseable timestamps.  (The
`except` arm of the source is unreachable: `errors choose coerce` never
raises.) -/
def get_merchant_date_range (df : RTable) (merchant_id : String) :
    Option Nat × Option Nat :=
  let merchant_data := df.rows.filter (fun r => r.merchantId = merchant_id)
  if merchant_data.length = 0 then (none, none)
  else if df.hasIssueCol = false then (none, none)
  else
    let valid_dates := merchant_data.filterMap RRow.issueTs
    if valid_dates.length = 0 then (none, none)
    else (valid_dates.min?, valid_dates.max?)

example :
    (calculate_merchant_stats [⟨"M1", "Rejected", 0⟩] "M1").success_rate = 0 ∧
      (calculate_merchant_stats [⟨"M1", "Rejected", 0⟩] "M1").total_txns = 1 := by
  constructor
  · show round2 (if 1 > 0 then ((0:Nat) : ℚ) / ((1:Nat) : ℚ) * 100 else 0) = 0
    norm_num [round2, roundHalfEven]
  · decide

example :
    (calculate_merchant_stats [⟨"M1", "Remitted", 0⟩, ⟨"M2", "Stuck", 0⟩] "M1").state_counts
      = [("Remitted", 1)] := by
  decide

example :
    get_merchant_date_range ⟨true, [⟨"M1", some 5⟩, ⟨"M1", none⟩, ⟨"M1", some 3⟩]⟩ "M1"
      = (some 3, some 5) := by
  decide

example :
    get_merchant_date_range ⟨true, [⟨"M1", none⟩]⟩ "M1" = (none, none) := by
  decide

example :
    get_merchant_date_range ⟨false, [⟨"M1", some 5⟩]⟩ "M1" = (none, none) := by
  decide

namespace PDF

/-!
The PDF-report program `Dashboard_New_PDF1.py` defines its own copies of
the four core pipeline functions (lines 25-159).  They are embedded here
a second time, from that file, so that the consistency contract between
the two programs is a theorem about two independent definitions.  Library
behaviour (Python string methods, pandas `concat` / `to_numeric` /
`to_datetime`) is shared between the two programs and so is its model.
-/

/-- `REQUIRED_COLUMNS` (`Dashboard_New_PDF1.py` lines 25-32). -/
def REQUIRED_COLUMNS : List String :=
  ["Account", "Merchant ID", "Amount", "Remit. Timestamp", "Issue Timestamp", "State"]

/-- The variation map of `normalize_state`
(`Dashboard_New_PDF1.py` lines 55-70). -/
def state_map : List (String × String) :=
  [("remitted", "Remitted"),
   ("published", "Published"),
   ("rejected", "Rejected"),
   ("on hold", "On hold"),
   ("onhold", "On hold"),
   ("stuck", "Stuck"),
   ("in review", "In review"),
   ("inreview", "In review"),
   ("in process", "In process"),
   ("inprocess", "In process"),
   ("aml review", "Aml review"),
   ("amlreview", "Aml review"),
   ("no config", "No config"),
   ("noconfig", "No config")]

/-- `normalize_state` (`Dashboard_New_PDF1.py` lines 47-72). -/
def normalize_state (state : Option String) : String :=
  match state with
  | none => "Unknown"
  | some s =>
    let state_lower := pyLower (pyStrip s)
    match state_map.lookup state_lower with
    | some v => v
    | none => pyCapitalize s

/-- The rename target of one stripped column label
(`Dashboard_New_PDF1.py` lines 81-85). -/
def renameCol (col : String) : String :=
  match REQUIRED_COLUMNS.find? (fun req => pyLower col = pyLower req) with
  | some req => req
  | none => col

/-- `clean_dataframe` (`Dashboard_New_PDF1.py` lines 74-94). -/
def clean_dataframe (df : DF) : DF :=
  let stripped := df.cols.map (fun c => (pyStrip c.1, c.2))
  let renamed := stripped.map (fun c => (renameCol c.1, c.2))
  let existing := REQUIRED_COLUMNS.filter (fun req => renamed.any (fun c => c.1 = req))
  { nrows := df.nrows
    cols := existing.flatMap (fun req => renamed.filter (fun c => c.1 = req)) }

/-- `normalize_state` applied to a `State` cell
(`Dashboard_New_PDF1.py` line 124). -/
def normalize_state_cell : Cell → Cell
  | Cell.null => Cell.str (normalize_state none)
  | Cell.str s => Cell.str (normalize_state (some s))
  | Cell.num q => Cell.str (normalize_state (some (toString q)))
  | Cell.inf b => Cell.str (normalize_state (some (if b then "inf" else "-inf")))

/-- The `State` update of `process_files`
(`Dashboard_New_PDF1.py` lines 123-124). -/
def normalizeStateCol (df : DF) : DF :=
  if df.cols.any (fun c => c.1 = "State") then
    { df with cols := df.cols.map (fun c =>
        if c.1 = "State" then (c.1, c.2.map normalize_state_cell) else c) }
  else df

/-- The coercion applied to each `Amount` cell
(`Dashboard_New_PDF1.py` line 128). -/
def coerceAmountCell (c : Cell) : Cell :=
  numCell ((toNum c).getD (PyNum.fin 0))

/-- The `Amount` update of `process_files`
(`Dashboard_New_PDF1.py` lines 127-128). -/
def coerceAmountCol (df : DF) : DF :=
  if df.cols.any (fun c => c.1 = "Amount") then
    { df with cols := df.cols.map (fun c =>
        if c.1 = "Amount" then (c.1, c.2.map coerceAmountCell) else c) }
  else df

/-- `process_files` (`Dashboard_New_PDF1.py` lines 96-130). -/
def process_files (files : List (Option DF)) : Option DF :=
  let all_data := (files.filterMap id).map clean_dataframe
  if all_data.isEmpty then none
  else some (coerceAmountCol (normalizeStateCol (concatDFs all_data)))

/-- `calculate_merchant_stats` (`Dashboard_New_PDF1.py` lines 132-159). -/
def calculate_merchant_stats (df : List Txn) (merchant_id : String) : Stats :=
  let merchant_data := df.filter (fun r => r.merchantId = merchant_id)
  let total_txns := merchant_data.length
  let success_txns := (merchant_data.filter (fun r => r.state = "Remitted")).length
  let success_rate : ℚ :=
    if total_txns > 0 then (success_txns : ℚ) / (total_txns : ℚ) * 100 else 0
  let total_amount := (merchant_data.map Txn.amount).sum
  let success_amount :=
    ((merchant_data.filter (fun r => r.state = "Remitted")).map Txn.amount).sum
  { merchant_id := merchant_id
    total_txns := total_txns
    success_txns := success_txns
    success_rate := round2 success_rate
    total_amount := total_amount
    success_amount := success_amount
    state_counts := ((merchant_data.map Txn.state).dedup).map
      (fun s => (s, (merchant_data.filter (fun r => r.state = s)).length))
    state_amounts := ((merchant_data.map Txn.state).dedup).map
      (fun s => (s, ((merchant_data.filter (fun r => r.state = s)).map Txn.amount).sum)) }

end PDF

/-- The fallback described by the spec (§4.1) for claim C3: first letter of
the **trimmed** original uppercased, all remaining characters unchanged.
This definition follows the spec wording, for comparison with the
source-derived `normalize_state`. -/
def specCapitalizeTrimmed (s : String) : String :=
  match (pyStrip s).data with
  | [] => ""
  | c :: cs => String.mk (c.toUpper :: cs)

/-- C3 (counterexample): on the raw value `" FOO"` — unmatched by the
lookup table — the code returns `" foo"` (Python `capitalize` of the
untrimmed original, which lowercases the tail), not the spec's `"FOO"`
(trimmed original with only the first letter uppercased and the rest
unchanged). -/
theorem normalize_state_fallback_not_spec_capitalize :
    state_map.lookup (pyLower (pyStrip " FOO")) = none ∧
      normalize_state (some " FOO") ≠ specCapitalizeTrimmed " FOO" ∧
      normalize_state (some " FOO") = " foo" ∧ specCapitalizeTrimmed " FOO" = "FOO" := by
  refine ⟨by decide, by decide, by decide, by decide⟩

/-- C3 (amended): for every non-null input whose trimmed, lowercased form
is not a key of the canonical lookup table, `normalize_state` returns the
Python capitalization of the original **untrimmed** string: its first
character uppercased and every remaining character **lowercased**. -/
theorem normalize_state_fallback_capitalize (s : String)
    (h : state_map.lookup (pyLower (pyStrip s)) = none) :
    normalize_state (some s) =
      (match s.data with
       | [] => ""
       | c :: cs => String.mk (c.toUpper :: cs.map Char.toLower)) := by
  simp only [normalize_state, h, pyCapitalize]

/-- Witness for the amended C3, at the unmatched raw value `"SECURED"`. -/
theorem normalize_state_fallback_capitalize_witness :
    normalize_state (some "SECURED") = "Secured" :=
  normalize_state_fallback_capitalize "SECURED" (by decide)

/-- C4 (counterexample): the empty string is not `pd.isna`, misses every
lookup key, and `"".capitalize()` is `""` — so `normalize_state` returns
`""`, not `"Unknown"`, on the empty string. -/
theorem normalize_state_empty_not_unknown :
    normalize_state (some "") ≠ "Unknown" ∧ normalize_state (some "") = "" := by
  refine ⟨by decide, by decide⟩

/-- C4 (amended): `normalize_state` maps a missing/null value to
`"Unknown"`, but an empty or whitespace-only string is **not** mapped to
`"Unknown"`: it falls through to the capitalize fallback and is returned
as itself (the empty string gives `""`, a whitespace-only string gives
itself). -/
theorem normalize_state_null_unknown :
    normalize_state none = "Unknown" ∧
      normalize_state (some "") = "" ∧
      normalize_state (some " ") = " " ∧
      normalize_state (some "   ") = "   " := by
  refine ⟨by decide, by decide, by decide, by decide⟩

/-- C8: the four core pipeline functions of the PDF-report program are
extensionally equal to the functions of the same names in the dashboard
program, on every input — the basis of the report/dashboard numeric
consistency contract. -/
theorem pdf_dashboard_pipeline_consistency :
    (∀ s, PDF.normalize_state s = normalize_state s) ∧
      (∀ df, PDF.clean_dataframe df = clean_dataframe df) ∧
      (∀ files, PDF.process_files files = process_files files) ∧
      (∀ df merchant_id,
        PDF.calculate_merchant_stats df merchant_id
          = calculate_merchant_stats df merchant_id) :=
  ⟨fun _ => rfl, fun _ => rfl, fun _ => rfl, fun _ _ => rfl⟩

/-- C9: `get_merchant_date_range` returns `(None, None)` exactly when the
merchant has zero rows, or the `Issue Timestamp` column is absent, or no
timestamp of the merchant parses; otherwise it returns the minimum and
maximum of the parseable timestamps (unparseable ones discarded from that
set only). -/
theorem get_merchant_date_range_spec (df : RTable) (merchant_id : String) :
    (get_merchant_date_range df merchant_id = (none, none) ↔
      (df.rows.filter (fun r => r.merchantId = merchant_id) = [] ∨
        df.hasIssueCol = false ∨
        (df.rows.filter (fun r => r.merchantId = merchant_id)).filterMap RRow.issueTs
          = [])) ∧
    (df.rows.filter (fun r => r.merchantId = merchant_id) ≠ [] →
      df.hasIssueCol = true →
      (df.rows.filter (fun r => r.merchantId = merchant_id)).filterMap RRow.issueTs
          ≠ [] →
      get_merchant_date_range df merchant_id =
        (((df.rows.filter (fun r => r.merchantId = merchant_id)).filterMap
            RRow.issueTs).min?,
         ((df.rows.filter (fun r => r.merchantId = merchant_id)).filterMap
            RRow.issueTs).max?)) := by
  constructor
  · unfold get_merchant_date_range
    by_cases h1 : (df.rows.filter (fun r => r.merchantId = merchant_id)).length = 0
    · rw [if_pos h1]
      simp [List.length_eq_zero.mp h1]
    · rw [if_neg h1]
      by_cases h2 : df.hasIssueCol = false
      · rw [if_pos h2]
        simp [h2]
      · rw [if_neg h2]
        by_cases h3 :
            ((df.rows.filter (fun r => r.merchantId = merchant_id)).filterMap
              RRow.issueTs).length = 0
        · rw [if_pos h3]
          simp [List.length_eq_zero.mp h3]
        · rw [if_neg h3]
          have hne :
              (df.rows.filter (fun r => r.merchantId = merchant_id)).filterMap
                RRow.issueTs ≠ [] := by
            intro h
            exact h3 (by rw [h]; rfl)
          constructor
          · intro h
            have hfst := congrArg Prod.fst h
            simp only [List.min?] at hfst
            rcases hv :
                (df.rows.filter (fun r => r.merchantId = merchant_id)).filterMap
                  RRow.issueTs with _ | ⟨v, vs⟩
            · exact absurd hv hne
            · rw [hv] at hfst
              simp [List.min?_cons] at hfst
          · intro h
            rcases h with h | h | h
            · exact absurd (by rw [h]; rfl) h1
            · exact absurd h h2
            · exact absurd h hne
  · intro hmd hic hv
    have h1 : ¬ (df.rows.filter (fun r => r.merchantId = merchant_id)).length = 0 := by
      intro h
      exact hmd (List.length_eq_zero.mp h)
    have h2 : ¬ df.hasIssueCol = false := by
      rw [hic]
      decide
    have h3 :
        ¬ ((df.rows.filter (fun r => r.merchantId = merchant_id)).filterMap
          RRow.issueTs).length = 0 := by
      intro h
      exact hv (List.length_eq_zero.mp h)
    unfold get_merchant_date_range
    rw [if_neg h1, if_neg h2, if_neg h3]

/-- Witness for C9, on a table whose merchant has one unparseable and two
parseable timestamps. -/
theorem get_merchant_date_range_spec_witness :
    get_merchant_date_range ⟨true, [⟨"M1", some 5⟩, ⟨"M1", none⟩, ⟨"M1", some 3⟩]⟩ "M1"
      = (some 3, some 5) := by
  have h := (get_merchant_date_range_spec
    ⟨true, [⟨"M1", some 5⟩, ⟨"M1", none⟩, ⟨"M1", some 3⟩]⟩ "M1").2
    (by decide) (by decide) (by decide)
  rw [h]
  decide

lemma roundHalfEven_nonneg (x : ℚ) (h : 0 ≤ x) : 0 ≤ roundHalfEven x := by
  have hf : (0 : ℤ) ≤ ⌊x⌋ := Int.floor_nonneg.mpr h
  unfold roundHalfEven
  split_ifs <;> omega

lemma roundHalfEven_le (x : ℚ) (n : ℤ) (h : x ≤ n) : roundHalfEven x ≤ n := by
  have hf : ⌊x⌋ ≤ n := by
    have h2 := Int.floor_le_floor (α := ℚ) h
    rwa [Int.floor_intCast] at h2
  have key : ⌊x⌋ = n → x - ⌊x⌋ ≤ 0 := by
    intro he
    have hxn : x ≤ ((⌊x⌋ : ℤ) : ℚ) := by
      rw [he]
      exact_mod_cast h
    linarith
  unfold roundHalfEven
  split_ifs with h1 h2 h3
  · exact hf
  · rcases lt_or_eq_of_le hf with hlt | heq
    · omega
    · exfalso
      have hr := not_lt.mp h1
      have := key heq
      linarith
  · exact hf
  · rcases lt_or_eq_of_le hf with hlt | heq
    · omega
    · exfalso
      have hr := not_lt.mp h1
      have := key heq
      linarith

lemma round2_nonneg {q : ℚ} (h : 0 ≤ q) : 0 ≤ round2 q := by
  unfold round2
  have h1 : (0 : ℤ) ≤ roundHalfEven (q * 100) := roundHalfEven_nonneg _ (by positivity)
  have h2 : (0 : ℚ) ≤ (roundHalfEven (q * 100) : ℚ) := by exact_mod_cast h1
  positivity

lemma round2_le_100 {q : ℚ} (h : q ≤ 100) : round2 q ≤ 100 := by
  unfold round2
  have h1 : roundHalfEven (q * 100) ≤ (10000 : ℤ) := by
    apply roundHalfEven_le
    push_cast
    linarith
  rw [div_le_iff₀ (by norm_num : (0:ℚ) < 100)]
  have h2 : (roundHalfEven (q * 100) : ℚ) ≤ 10000 := by exact_mod_cast h1
  linarith

lemma round2_zero : round2 0 = 0 := by
  unfold round2 roundHalfEven
  norm_num

/-- C1 (counterexample): a merchant with one non-`Remitted` row has
`success_rate = 0` while `total_txns = 1`, so `rate = 0` does not imply
`total_txns = 0`. -/
theorem success_rate_zero_with_rows :
    (calculate_merchant_stats [⟨"M1", "Rejected", 0⟩] "M1").success_rate = 0 ∧
      (calculate_merchant_stats [⟨"M1", "Rejected", 0⟩] "M1").total_txns ≠ 0 := by
  constructor
  · show round2 (if 1 > 0 then ((0:Nat) : ℚ) / ((1:Nat) : ℚ) * 100 else 0) = 0
    norm_num [round2, roundHalfEven]
  · decide

/-- C1 (amended): for every unified table and merchant, `success_rate`
lies in `[0, 100]`, and `total_txns = 0` implies `success_rate = 0` (the
converse fails: any merchant whose rows contain no `Remitted` state also
has rate `0`). -/
theorem success_rate_in_range (df : List Txn) (merchant_id : String) :
    0 ≤ (calculate_merchant_stats df merchant_id).success_rate ∧
      (calculate_merchant_stats df merchant_id).success_rate ≤ 100 ∧
      ((calculate_merchant_stats df merchant_id).total_txns = 0 →
        (calculate_merchant_stats df merchant_id).success_rate = 0) := by
  have hrate : (calculate_merchant_stats df merchant_id).success_rate
      = round2 (if (df.filter (fun r => r.merchantId = merchant_id)).length > 0
          then (((df.filter (fun r => r.merchantId = merchant_id)).filter
                (fun r => r.state = "Remitted")).length : ℚ)
              / ((df.filter (fun r => r.merchantId = merchant_id)).length : ℚ) * 100
          else 0) := rfl
  have htot : (calculate_merchant_stats df merchant_id).total_txns
      = (df.filter (fun r => r.merchantId = merchant_id)).length := rfl
  rw [hrate, htot]
  by_cases h : (df.filter (fun r => r.merchantId = merchant_id)).length > 0
  · rw [if_pos h]
    have hle : (((df.filter (fun r => r.merchantId = merchant_id)).filter
          (fun r => r.state = "Remitted")).length : ℚ)
        ≤ ((df.filter (fun r => r.merchantId = merchant_id)).length : ℚ) := by
      exact_mod_cast List.length_filter_le _ _
    have hpos : (0:ℚ) < ((df.filter (fun r => r.merchantId = merchant_id)).length : ℚ) := by
      exact_mod_cast h
    refine ⟨round2_nonneg (by positivity), round2_le_100 ?_, fun h0 => absurd h0 (by omega)⟩
    have hdiv : (((df.filter (fun r => r.merchantId = merchant_id)).filter
          (fun r => r.state = "Remitted")).length : ℚ)
        / ((df.filter (fun r => r.merchantId = merchant_id)).length : ℚ) ≤ 1 :=
      (div_le_one hpos).mpr hle
    nlinarith
  · rw [if_neg h]
    simp [round2_zero]

/-- Witness for the amended C1, at a one-row table. -/
theorem success_rate_in_range_witness :
    0 ≤ (calculate_merchant_stats [⟨"M1", "Remitted", 0⟩] "M1").success_rate ∧
      (calculate_merchant_stats [⟨"M1", "Remitted", 0⟩] "M1").success_rate ≤ 100 ∧
      ((calculate_merchant_stats [⟨"M1", "Remitted", 0⟩] "M1").total_txns = 0 →
        (calculate_merchant_stats [⟨"M1", "Remitted", 0⟩] "M1").success_rate = 0) :=
  success_rate_in_range [⟨"M1", "Remitted", 0⟩] "M1"

lemma sum_map_ite_eq_one {S : List String} {a : String} (hnd : S.Nodup) (ha : a ∈ S) :
    (S.map (fun s => if a = s then (1:Nat) else 0)).sum = 1 := by
  induction S with
  | nil => cases ha
  | cons x xs ih =>
    rcases List.mem_cons.mp ha with h | h
    · subst h
      have hx : a ∉ xs := (List.nodup_cons.mp hnd).1
      have hz : (xs.map (fun s => if a = s then (1:Nat) else 0)).sum = 0 := by
        apply List.sum_eq_zero
        intro y hy
        rcases List.mem_map.mp hy with ⟨z, hz, rfl⟩
        rw [if_neg]
        intro he
        exact hx (he ▸ hz)
      simp [hz]
    · have hx : x ≠ a := by
        intro he
        exact (List.nodup_cons.mp hnd).1 (he ▸ h)
      have hih := ih (List.nodup_cons.mp hnd).2 h
      simp only [List.map_cons, List.sum_cons, hih]
      rw [if_neg (fun he => hx he.symm)]

lemma sum_map_add_nat {α : Type} (S : List α) (f g : α → Nat) :
    (S.map (fun s => f s + g s)).sum = (S.map f).sum + (S.map g).sum := by
  induction S with
  | nil => rfl
  | cons x xs ih =>
    simp only [List.map_cons, List.sum_cons, ih]
    omega

/-- Partition property: summing, over a duplicate-free list of states
covering a row list, the count of rows in each state gives the row count. -/
lemma countP_partition (S : List String) (hnd : S.Nodup) (l : List Txn)
    (hmem : ∀ x ∈ l, x.state ∈ S) :
    (S.map (fun s => (l.filter (fun r => r.state = s)).length)).sum = l.length := by
  induction l with
  | nil => simp
  | cons x xs ih =>
    have hx : x.state ∈ S := hmem x (List.mem_cons_self x xs)
    have hxs : ∀ y ∈ xs, y.state ∈ S := fun y hy => hmem y (List.mem_cons_of_mem x hy)
    have hstep : ∀ s : String, ((x :: xs).filter (fun r => r.state = s)).length
        = (xs.filter (fun r => r.state = s)).length + (if x.state = s then 1 else 0) := by
      intro s
      by_cases hsx : x.state = s
      · simp [List.filter_cons, hsx]
      · simp [List.filter_cons, hsx]
    simp only [hstep]
    rw [sum_map_add_nat, ih hxs, sum_map_ite_eq_one hnd hx]
    simp [Nat.add_comm]

/-- C2: for every unified table (its `State` column normalized, hence a
string in every row) and every merchant, the values of `state_counts` sum
to `total_txns`; the same computation applied to the full unfiltered table
sums to the full row count. -/
theorem state_counts_sum_eq_total (df : List Txn) (merchant_id : String) :
    (((calculate_merchant_stats df merchant_id).state_counts).map Prod.snd).sum
        = (calculate_merchant_stats df merchant_id).total_txns ∧
      ((overall_state_counts df).map Prod.snd).sum = df.length := by
  constructor
  · have hsc : (calculate_merchant_stats df merchant_id).state_counts
        = (distinctStates (df.filter (fun r => r.merchantId = merchant_id))).map
          (fun s => (s, ((df.filter (fun r => r.merchantId = merchant_id)).filter
            (fun r => r.state = s)).length)) := rfl
    have htot : (calculate_merchant_stats df merchant_id).total_txns
        = (df.filter (fun r => r.merchantId = merchant_id)).length := rfl
    rw [hsc, htot, List.map_map]
    exact countP_partition _ (List.nodup_dedup _) _
      (fun x hx => List.mem_dedup.mpr (List.mem_map_of_mem Txn.state hx))
  · rw [overall_state_counts, List.map_map]
    exact countP_partition _ (List.nodup_dedup _) _
      (fun x hx => List.mem_dedup.mpr (List.mem_map_of_mem Txn.state hx))

/-- C10: `state_counts` and `state_amounts` have the same key list — the
distinct states of the merchant's filtered rows, a state being a key
exactly when some filtered row carries it; every count value is positive,
and every amount value is the sum of the amounts of the rows in that
state. -/
theorem state_counts_amounts_same_keys (df : List Txn) (merchant_id : String) :
    ((calculate_merchant_stats df merchant_id).state_counts.map Prod.fst
        = (calculate_merchant_stats df merchant_id).state_amounts.map Prod.fst) ∧
      (∀ s, s ∈ (calculate_merchant_stats df merchant_id).state_counts.map Prod.fst ↔
        ∃ r ∈ df.filter (fun r => r.merchantId = merchant_id), r.state = s) ∧
      (∀ p ∈ (calculate_merchant_stats df merchant_id).state_counts, 0 < p.2) ∧
      (∀ p ∈ (calculate_merchant_stats df merchant_id).state_amounts,
        p.2 = (((df.filter (fun r => r.merchantId = merchant_id)).filter
          (fun r => r.state = p.1)).map Txn.amount).sum) := by
  have hsc : (calculate_merchant_stats df merchant_id).state_counts
      = (distinctStates (df.filter (fun r => r.merchantId = merchant_id))).map
        (fun s => (s, ((df.filter (fun r => r.merchantId = merchant_id)).filter
          (fun r => r.state = s)).length)) := rfl
  have hsa : (calculate_merchant_stats df merchant_id).state_amounts
      = (distinctStates (df.filter (fun r => r.merchantId = merchant_id))).map
        (fun s => (s, (((df.filter (fun r => r.merchantId = merchant_id)).filter
          (fun r => r.state = s)).map Txn.amount).sum)) := rfl
  refine ⟨?_, ?_, ?_, ?_⟩
  · rw [hsc, hsa, List.map_map, List.map_map]
    rfl
  · intro s
    rw [hsc, List.map_map]
    have hkeys : (Prod.fst ∘ fun s => (s, ((df.filter (fun r => r.merchantId = merchant_id)).filter
        (fun r => r.state = s)).length)) = id := rfl
    rw [hkeys, List.map_id]
    unfold distinctStates
    rw [List.mem_dedup, List.mem_map]
  · intro p hp
    rw [hsc] at hp
    rcases List.mem_map.mp hp with ⟨s, hs, rfl⟩
    unfold distinctStates at hs
    rcases List.mem_map.mp (List.mem_dedup.mp hs) with ⟨r, hr, hrs⟩
    have hmem2 : r ∈ (df.filter (fun t => t.merchantId = merchant_id)).filter
        (fun t => t.state = s) := by
      rw [List.mem_filter]
      exact ⟨hr, by simp [hrs]⟩
    exact List.length_pos.mpr (List.ne_nil_of_mem hmem2)
  · intro p hp
    rw [hsa] at hp
    rcases List.mem_map.mp hp with ⟨s, hs, rfl⟩
    rfl

/-- Filtering a concatenation of blocks, where every element of the block
of `r` satisfies the key predicate exactly for `r`, returns the block of
the requested key (or nothing when that key has no block). -/
lemma filter_flatMap_blocks (L : List String) (g : String → List (String × List Cell))
    (hg : ∀ r, ∀ c ∈ g r, c.1 = r) (hnd : L.Nodup) (req : String) :
    (L.flatMap g).filter (fun c => c.1 = req) = if req ∈ L then g req else [] := by
  induction L with
  | nil => simp
  | cons r rs ih =>
    rw [List.flatMap_cons, List.filter_append]
    have hblock : (g r).filter (fun c => c.1 = req) = if r = req then g r else [] := by
      by_cases hr : r = req
      · subst hr
        rw [if_pos rfl]
        apply List.filter_eq_self.mpr
        intro c hc
        simp [hg r c hc]
      · rw [if_neg hr]
        apply List.filter_eq_nil_iff.mpr
        intro c hc
        simp [hg r c hc, hr]
    rw [hblock, ih (List.nodup_cons.mp hnd).2]
    by_cases hr : r = req
    · subst hr
      rw [if_pos rfl, if_pos (List.mem_cons_self r rs)]
      rw [if_neg (List.nodup_cons.mp hnd).1, List.append_nil]
    · rw [if_neg hr, List.nil_append]
      by_cases hm : req ∈ rs
      · rw [if_pos hm, if_pos (List.mem_cons_of_mem r hm)]
      · rw [if_neg hm, if_neg]
        intro hmm
        rcases List.mem_cons.mp hmm with h | h
        · exact hr h.symm
        · exact hm h

/-- C5 (counterexample): two raw columns `"state"` and `"State"` both
match the canonical name `State`; `clean_dataframe` keeps **both**
(relabelled), so the output does not contain exactly one `State` column
holding the later column's data. -/
theorem clean_dataframe_collision_keeps_both :
    (clean_dataframe
        { nrows := 1, cols := [("state", [Cell.num 1]), ("State", [Cell.num 2])] }).cols
      = [("State", [Cell.num 1]), ("State", [Cell.num 2])] ∧
      ((clean_dataframe
          { nrows := 1, cols := [("state", [Cell.num 1]), ("State", [Cell.num 2])] }).cols.filter
        (fun c => c.1 = "State")).length ≠ 1 := by
  refine ⟨by decide, by decide⟩

/-- C5 (amended): when several raw columns match the same canonical
required name, `clean_dataframe` keeps them **all**: the columns of the
output bearing a canonical name are exactly the matching source columns,
relabelled, in original order, each retaining its own data (pandas
`rename` relabels independently — nothing is overwritten — and label
selection returns every column bearing the label); moreover every output
column bears a canonical required name. -/
theorem clean_dataframe_collision (df : DF) (req : String)
    (hreq : req ∈ REQUIRED_COLUMNS) :
    (clean_dataframe df).cols.filter (fun c => c.1 = req)
        = (df.cols.map (fun c => (renameCol (pyStrip c.1), c.2))).filter
            (fun c => c.1 = req) ∧
      ∀ c ∈ (clean_dataframe df).cols, c.1 ∈ REQUIRED_COLUMNS := by
  have hmm : ((df.cols.map (fun c => (pyStrip c.1, c.2))).map
      (fun c => (renameCol c.1, c.2)))
      = df.cols.map (fun c => (renameCol (pyStrip c.1), c.2)) := by
    rw [List.map_map]
    rfl
  constructor
  · show ((REQUIRED_COLUMNS.filter (fun q =>
        ((df.cols.map (fun c => (pyStrip c.1, c.2))).map
          (fun c => (renameCol c.1, c.2))).any (fun c => c.1 = q))).flatMap
        (fun q => ((df.cols.map (fun c => (pyStrip c.1, c.2))).map
          (fun c => (renameCol c.1, c.2))).filter (fun c => c.1 = q))).filter
        (fun c => c.1 = req)
      = _
    rw [hmm]
    rw [filter_flatMap_blocks _ _
      (fun r c hc => by simpa using (List.mem_filter.mp hc).2)
      (List.Nodup.filter _ (by decide : REQUIRED_COLUMNS.Nodup)) req]
    by_cases hin : req ∈ REQUIRED_COLUMNS.filter (fun q =>
        (df.cols.map (fun c => (renameCol (pyStrip c.1), c.2))).any (fun c => c.1 = q))
    · rw [if_pos hin]
    · rw [if_neg hin]
      have hnone : ¬ (df.cols.map (fun c => (renameCol (pyStrip c.1), c.2))).any
          (fun c => c.1 = req) := by
        intro hany
        exact hin (List.mem_filter.mpr ⟨hreq, by simpa using hany⟩)
      symm
      apply List.filter_eq_nil_iff.mpr
      intro c hc
      intro hcr
      apply hnone
      refine List.any_eq_true.mpr ⟨c, hc, ?_⟩
      simpa using of_decide_eq_true hcr
  · intro c hc
    have hc2 : c ∈ (REQUIRED_COLUMNS.filter (fun q =>
        ((df.cols.map (fun c => (pyStrip c.1, c.2))).map
          (fun c => (renameCol c.1, c.2))).any (fun c => c.1 = q))).flatMap
        (fun q => ((df.cols.map (fun c => (pyStrip c.1, c.2))).map
          (fun c => (renameCol c.1, c.2))).filter (fun c => c.1 = q)) := hc
    rcases List.mem_flatMap.mp hc2 with ⟨q, hq, hcq⟩
    have hq1 : q ∈ REQUIRED_COLUMNS := (List.mem_filter.mp hq).1
    have hcq1 : c.1 = q := by simpa using (List.mem_filter.mp hcq).2
    rw [hcq1]
    exact hq1

/-- Witness for the amended C5, at the duplicate-match table of the
counterexample: both matching columns appear under `State`. -/
theorem clean_dataframe_collision_witness :
    (clean_dataframe
        { nrows := 1, cols := [("state", [Cell.num 1]), ("State", [Cell.num 2])] }).cols.filter
        (fun c => c.1 = "State")
      = [("State", [Cell.num 1]), ("State", [Cell.num 2])] := by
  have h := (clean_dataframe_collision
    { nrows := 1, cols := [("state", [Cell.num 1]), ("State", [Cell.num 2])] }
    "State" (by decide)).1
  rw [h]
  decide

lemma clean_dataframe_nrows (df : DF) : (clean_dataframe df).nrows = df.nrows := rfl

lemma normalizeStateCol_nrows (df : DF) : (normalizeStateCol df).nrows = df.nrows := by
  unfold normalizeStateCol
  split_ifs <;> rfl

lemma coerceAmountCol_nrows (df : DF) : (coerceAmountCol df).nrows = df.nrows := by
  unfold coerceAmountCol
  split_ifs <;> rfl

/-- C6 (counterexample): a file that parses successfully but has zero
rows makes `process_files` return an ordinary (empty) table, not the
`None` no-data outcome — the caller can receive an empty-but-valid
table, and separately tests `df.empty`. -/
theorem process_files_empty_table_not_none :
    process_files [some { nrows := 0, cols := [("State", [])] }]
        = some { nrows := 0, cols := [("State", [])] } ∧
      ({ nrows := 0, cols := [("State", [])] } : DF).nrows = 0 := by
  refine ⟨by decide, rfl⟩

/-- C6 (amended): `process_files` returns the `None` no-data outcome
exactly when zero files parsed successfully; when at least one file
parses it returns the combined table even when that table has zero rows
(its row count is the sum of the parsed files' row counts) — the caller
must additionally test emptiness before computing metrics, as the
dashboard does with `df.empty`. -/
theorem process_files_none_iff (files : List (Option DF)) :
    (process_files files = none ↔ files.filterMap id = []) ∧
      ∀ d, process_files files = some d →
        d.nrows = ((files.filterMap id).map DF.nrows).sum := by
  have hmapn : ∀ parsed : List DF,
      ((parsed.map clean_dataframe).map DF.nrows).sum = (parsed.map DF.nrows).sum := by
    intro parsed
    rw [List.map_map]
    rfl
  by_cases hp : files.filterMap id = []
  · constructor
    · unfold process_files
      rw [hp]
      simp
    · intro d hd
      unfold process_files at hd
      rw [hp] at hd
      simp at hd
  · have hcond : ¬ (((files.filterMap id).map clean_dataframe).isEmpty = true) := by
      rw [List.isEmpty_iff]
      intro h
      exact hp (List.map_eq_nil_iff.mp h)
    constructor
    · unfold process_files
      rw [if_neg hcond]
      simp [hp]
    · intro d hd
      unfold process_files at hd
      rw [if_neg hcond] at hd
      have hdv := Option.some.inj hd
      rw [← hdv, coerceAmountCol_nrows, normalizeStateCol_nrows]
      show (((files.filterMap id).map clean_dataframe).map DF.nrows).sum = _
      exact hmapn _

/-- Witness for the amended C6: one parsed zero-row file gives a `some`
result with row count `0`; an all-failed batch gives `none`. -/
theorem process_files_none_iff_witness :
    process_files [some { nrows := 0, cols := [("State", [])] }, none] ≠ none ∧
      (∀ d, process_files [some { nrows := 0, cols := [("State", [])] }, none] = some d →
        d.nrows = 0) := by
  have h := process_files_none_iff [some { nrows := 0, cols := [("State", [])] }, none]
  constructor
  · intro hn
    have := h.1.mp hn
    simp at this
  · intro d hd
    exact h.2 d hd

/-- A cell holding a finite number — what claim C7 asserts of every
`Amount` cell of the unified table. -/
def isFiniteNum : Cell → Bool
  | Cell.num _ => true
  | _ => false

lemma numCell_ne_null (v : PyNum) : numCell v ≠ Cell.null := by
  cases v <;> simp [numCell]

/-- C7 (counterexample): the source string `"inf"` is converted
**successfully** by `pd.to_numeric` to `+∞`, which `.fillna(0)` keeps (it
only replaces `NaN`) — so the `Amount` column of the returned unified
table holds a value that is not a finite number. -/
theorem process_files_amount_infinite :
    process_files [some { nrows := 1, cols := [("Amount", [Cell.str "inf"])] }]
        = some { nrows := 1, cols := [("Amount", [Cell.inf true])] } ∧
      isFiniteNum (Cell.inf true) = false := by
  refine ⟨by decide, by decide⟩

/-- C7 (amended): in the table returned by `process_files`, every column
labelled `Amount` is the pointwise numeric coercion of a source column:
every cell is a float **value** — finite or `±∞`, but never null/`NaN` (a
cell whose source failed conversion or was `NaN` is exactly `num 0` by
`(toNum x).getD (fin 0)`), and, being a `List.map`, the coercion keeps
every row.  Finiteness does not hold: sources such as `"inf"`, `"-inf"`
or overflowing numerals coerce to an infinity, which `fillna(0)` keeps. -/
theorem process_files_amount_numeric (files : List (Option DF)) (d : DF)
    (hd : process_files files = some d) :
    ∀ c ∈ d.cols, c.1 = "Amount" →
      (∃ pre : List Cell,
          c.2 = pre.map (fun x => numCell ((toNum x).getD (PyNum.fin 0)))) ∧
        (∀ x ∈ c.2, ∃ v : PyNum, x = numCell v) ∧ ∀ x ∈ c.2, x ≠ Cell.null := by
  intro c hc hname
  by_cases hp : ((files.filterMap id).map clean_dataframe).isEmpty = true
  · unfold process_files at hd
    rw [if_pos hp] at hd
    cases hd
  · unfold process_files at hd
    rw [if_neg hp] at hd
    have hdv := Option.some.inj hd
    have hpre : ∃ pre : List Cell, c.2 = pre.map coerceAmountCell := by
      rw [← hdv] at hc
      unfold coerceAmountCol at hc
      by_cases hg :
          (normalizeStateCol (concatDFs ((files.filterMap id).map
            clean_dataframe))).cols.any (fun c => c.1 = "Amount") = true
      · rw [if_pos hg] at hc
        simp only [List.mem_map] at hc
        rcases hc with ⟨c0, hc0, hcc⟩
        by_cases h0 : c0.1 = "Amount"
        · rw [if_pos h0] at hcc
          exact ⟨c0.2, by rw [← hcc]⟩
        · rw [if_neg h0] at hcc
          rw [← hcc] at hname
          exact absurd hname h0
      · rw [if_neg hg] at hc
        exfalso
        apply hg
        exact List.any_eq_true.mpr ⟨c, hc, by simp [hname]⟩
    rcases hpre with ⟨pre, hpre⟩
    refine ⟨⟨pre, hpre⟩, ?_, ?_⟩
    · intro x hx
      rw [hpre] at hx
      rcases List.mem_map.mp hx with ⟨y, _, rfl⟩
      exact ⟨(toNum y).getD (PyNum.fin 0), rfl⟩
    · intro x hx
      rw [hpre] at hx
      rcases List.mem_map.mp hx with ⟨y, _, rfl⟩
      exact numCell_ne_null _

/-- Witness for the amended C7: a one-row file whose `Amount` value
`"N/A"` fails conversion yields the amount column `[num 0]`, with no null
cell. -/
theorem process_files_amount_numeric_witness :
    (∃ pre : List Cell,
        [Cell.num 0] = pre.map (fun x => numCell ((toNum x).getD (PyNum.fin 0)))) ∧
      (∀ x ∈ [Cell.num 0], ∃ v : PyNum, x = numCell v) ∧
      ∀ x ∈ [Cell.num 0], x ≠ Cell.null := by
  have h := process_files_amount_numeric
    [some { nrows := 1, cols := [(" amount", [Cell.str "N/A"])] }]
    { nrows := 1, cols := [("Amount", [Cell.num 0])] }
    (by decide)
    ("Amount", [Cell.num 0]) (by decide) rfl
  exact h

end Dashboard
